import Mathlib

/-!
# Verification of the adonis-ally-keycloak OAuth2 driver

A shallow embedding, in Lean 4, of the driver implemented in
`src/Keycloak/index.ts`.  JavaScript strings are modelled as `List Char`,
optional (possibly `undefined`) configuration fields as `Option`, and the
throwing constructor as a function into `Except`.  The semantics of
`String.prototype.replace` with a string pattern — replacement of the first
occurrence only, together with `GetSubstitution` processing of `$`-escapes
in the replacement text — is embedded faithfully.
-/

set_option autoImplicit false

/-- JavaScript strings are modelled as lists of characters. -/
abbrev Str := List Char

/-- The dollar character, starting a replacement pattern in `GetSubstitution`. -/
def dollarChar : Char := Char.ofNat 36

/-- The backquote character (pattern for the text preceding the match). -/
def backquoteChar : Char := Char.ofNat 96

/-- The single-quote character (pattern for the text following the match). -/
def singleQuoteChar : Char := Char.ofNat 39

/-- The ampersand character (pattern for the matched text). -/
def ampChar : Char := Char.ofNat 38

/-- ECMAScript `StringIndexOf(s, pat, 0)`: position of the first occurrence
of `pat` in `s`, or `none`.  An empty pattern matches at position 0. -/
def strIndexOf (s pat : Str) : Option Nat :=
  if pat.isPrefixOf s then some 0
  else
    match s with
    | [] => none
    | _ :: rest => (strIndexOf rest pat).map (· + 1)

/-- `true` when `pat` occurs somewhere in `s`. -/
def containsStr (s pat : Str) : Bool :=
  (strIndexOf s pat).isSome

/-- ECMAScript `GetSubstitution` for a string (non-regex) search with no
capture groups: rewrites the replacement text, expanding `$$` to `$`,
`$&` to the matched text, a dollar-backquote to the portion of `str`
before the match and a dollar-quote to the portion after it.  Any other
use of `$` is literal. -/
def getSubstitution (matched str : Str) (position : Nat) : Str → Str
  | [] => []
  | c :: rest =>
    if c = dollarChar then
      match rest with
      | [] => [dollarChar]
      | d :: rest2 =>
        if d = dollarChar then dollarChar :: getSubstitution matched str position rest2
        else if d = ampChar then matched ++ getSubstitution matched str position rest2
        else if d = backquoteChar then
          str.take position ++ getSubstitution matched str position rest2
        else if d = singleQuoteChar then
          str.drop (position + matched.length) ++ getSubstitution matched str position rest2
        else dollarChar :: d :: getSubstitution matched str position rest2
    else c :: getSubstitution matched str position rest

/-- ECMAScript `String.prototype.replace(searchString, replaceString)` for a
plain-string search value: replaces the first occurrence of `pat` in `s`
by the `GetSubstitution`-processed replacement; returns `s` unchanged when
`pat` does not occur. -/
def jsReplace (s pat rep : Str) : Str :=
  match strIndexOf s pat with
  | none => s
  | some i => s.take i ++ getSubstitution pat s i rep ++ s.drop (i + pat.length)

/-- First-occurrence literal substitution, stated structurally: walk the
string and splice `rep` verbatim in place of the first occurrence of `pat`,
leaving everything after it (hence every later occurrence) untouched.  This
is the claim's own notion of substitution, to be compared with `jsReplace`
as embedded from the code. -/
def replaceFirstOnlySpec (pat rep : Str) : Str → Str
  | [] => if pat = [] then rep else []
  | c :: rest =>
    if pat.isPrefixOf (c :: rest) then rep ++ (c :: rest).drop pat.length
    else c :: replaceFirstOnlySpec pat rep rest

/-- The `KeycloakConfig` type of the driver.  Fields marked `?` in the
TypeScript source are `Option`s; the constant literal `driver: 'keycloak'`
tag is carried as a plain field. -/
structure KeycloakConfig where
  driver : Str
  keycloakUrl : Option Str
  realm : Option Str
  clientId : Str
  clientSecret : Str
  callbackUrl : Str
  authorizeUrl : Option Str
  accessTokenUrl : Option Str
  userInfoUrl : Option Str
deriving DecidableEq, Repr

/-- JavaScript falsiness of an optional string: `undefined`, `null` and the
empty string are falsy; this is the test performed by the constructor's
`!this.config.realm` / `!this.config.keycloakUrl` guards. -/
def falsyStr : Option Str → Bool
  | none => true
  | some s => s.isEmpty

/-- The incoming HTTP request of the context, modelled as the association
list of its input parameters (`ctx.request.input(key)` looks a key up). -/
structure HttpContext where
  params : List (Str × Str)
deriving DecidableEq, Repr

/-- `ctx.request.input(key)`: the value of an input parameter, or `none`
when the parameter is absent. -/
def requestInput (ctx : HttpContext) (key : Str) : Option Str :=
  ctx.params.lookup key

/-- The literal `{{realm}}` placeholder of the URL template. -/
def realmPlaceholder : Str := "\x7b\x7brealm\x7d\x7d".toList

/-- The literal `{{action}}` placeholder of the URL template. -/
def actionPlaceholder : Str := "\x7b\x7baction\x7d\x7d".toList

/-- `buildKeycloakUrl(action)`: substitutes the realm for `{{realm}}` and the
action for `{{action}}` in the `keycloakUrl` template, using JavaScript
`String.replace` (first occurrence, `$`-escape processing).  The source
dereferences `keycloakUrl!` and `realm!` with non-null assertions, which the
constructor's guards justify; the embedding uses `Option.getD []`. -/
def buildKeycloakUrl (config : KeycloakConfig) (action : Str) : Str :=
  jsReplace
    (jsReplace (config.keycloakUrl.getD []) realmPlaceholder (config.realm.getD []))
    actionPlaceholder action

/-- The message of the error thrown when `realm` is missing. -/
def realmErrorMessage : Str :=
  "Keycloak driver needs the \"realm\" to be defined".toList

/-- The message of the error thrown when `keycloakUrl` is missing. -/
def keycloakUrlErrorMessage : Str :=
  "Keycloak driver needs the \"keycloakUrl\" to be defined".toList

/-- A constructed `KeycloakDriver` instance: the three protected endpoint-URL
fields assigned by the constructor, the stored config and context, and the
flag recording that the inherited `loadState()` step ran. -/
structure KeycloakDriver where
  authorizeUrl : Str
  accessTokenUrl : Str
  userInfoUrl : Str
  config : KeycloakConfig
  ctx : HttpContext
  stateLoaded : Bool
deriving DecidableEq, Repr

/-- The `KeycloakDriver` constructor: throws when `realm` is falsy, then when
`keycloakUrl` is falsy, and otherwise assigns the three endpoint-URL fields
from `buildKeycloakUrl` with actions `auth`, `token`, `userinfo` and calls
the inherited `loadState()`. -/
def KeycloakDriver.construct (ctx : HttpContext) (config : KeycloakConfig) :
    Except Str KeycloakDriver :=
  if falsyStr config.realm then
    Except.error realmErrorMessage
  else if falsyStr config.keycloakUrl then
    Except.error keycloakUrlErrorMessage
  else
    Except.ok
      { authorizeUrl := buildKeycloakUrl config ("auth".toList)
        accessTokenUrl := buildKeycloakUrl config ("token".toList)
        userInfoUrl := buildKeycloakUrl config ("userinfo".toList)
        config := config
        ctx := ctx
        stateLoaded := true }

/-- The `KeycloakAccessToken` type: an opaque token string and the fixed
`'bearer'` type tag. -/
structure KeycloakAccessToken where
  token : Str
  type : Str
deriving DecidableEq, Repr

/-- An outgoing API request of the HTTP client: URL, the headers set on it
(in the order `request.header(...)` was called), and the parse mode set by
`request.parseAs(...)`. -/
structure ApiRequest where
  url : Str
  headers : List (Str × Str)
  parseMode : Option Str
deriving DecidableEq, Repr

/-- `this.httpClient(url)`: a fresh request for `url`. -/
def httpClient (url : Str) : ApiRequest :=
  { url := url, headers := [], parseMode := none }

/-- `request.header(key, value)`. -/
def ApiRequest.header (r : ApiRequest) (key value : Str) : ApiRequest :=
  { r with headers := r.headers ++ [(key, value)] }

/-- `request.parseAs(mode)`. -/
def ApiRequest.parseAs (r : ApiRequest) (mode : Str) : ApiRequest :=
  { r with parseMode := some mode }

/-- `getAuthenticatedRequest(url, token)`: builds the request for `url` and
sets the `Authorization: Bearer <token>` header, the
`Accept: application/json` header and JSON parsing. -/
def getAuthenticatedRequest (url : Str) (token : Str) : ApiRequest :=
  ((httpClient url).header ("Authorization".toList) ("Bearer ".toList ++ token)).header
    ("Accept".toList) ("application/json".toList) |>.parseAs ("json".toList)

/-- The request customizer callback, `type Callback` in the source.  The
TypeScript callback mutates the request it receives; the embedding models
its effect as a function from the request to the mutated request. -/
abbrev Callback := ApiRequest → ApiRequest

/-- The fields of the provider's user-info JSON payload that `getUserInfo`
reads. -/
structure UserInfoPayload where
  sub : Str
  preferred_username : Str
  family_name : Str
  given_name : Str
  name : Str
  email : Str
  email_verified : Bool
deriving DecidableEq, Repr

/-- The `KeycloakUserContract` record returned by `getUserInfo`. -/
structure KeycloakUser where
  id : Str
  nickName : Str
  lastName : Str
  firstName : Str
  name : Str
  email : Str
  avatarUrl : Option Str
  emailVerificationState : Str
  original : UserInfoPayload
  token : KeycloakAccessToken
deriving DecidableEq, Repr

/-- The request built by the first line of `getUserInfo`:
`getAuthenticatedRequest(this.config.userInfoUrl ?? this.userInfoUrl, token)`.
Nullish coalescing `??` is exactly `Option.getD`. -/
def KeycloakDriver.userInfoRequest (d : KeycloakDriver) (token : Str) : ApiRequest :=
  getAuthenticatedRequest (d.config.userInfoUrl.getD d.userInfoUrl) token

/-- `getUserInfo(token, callback)`.  The provider's JSON response is a
parameter (`payload`) of the model, standing for the body returned by
`request.get()`.  The result records, in order: the request as it is sent,
the list of requests the callback was invoked on (its trace), and the
returned user record. -/
def KeycloakDriver.getUserInfo (d : KeycloakDriver) (token : Str)
    (callback : Option Callback) (payload : UserInfoPayload) :
    ApiRequest × List ApiRequest × KeycloakUser :=
  let request := d.userInfoRequest token
  let sent : ApiRequest × List ApiRequest :=
    match callback with
    | some f => (f request, [request])
    | none => (request, [])
  (sent.1, sent.2,
    { id := payload.sub
      nickName := payload.preferred_username
      lastName := payload.family_name
      firstName := payload.given_name
      name := payload.name
      email := payload.email
      avatarUrl := none
      emailVerificationState :=
        if payload.email_verified then "verified".toList else "unverified".toList
      original := payload
      token := { type := "bearer".toList, token := token } })

/-- `accessDenied()`: strict equality of the request's `error` input
parameter with the literal `'user_denied'`. -/
def KeycloakDriver.accessDenied (d : KeycloakDriver) : Bool :=
  requestInput d.ctx ("error".toList) == some ("user_denied".toList)

/-- `user(callback)`: the inherited `this.accessToken(callback)` exchange is
framework code outside this repository; its result is the `accessToken`
parameter.  The body then calls `getUserInfo(accessToken.token, callback)`. -/
def KeycloakDriver.user (d : KeycloakDriver) (accessToken : KeycloakAccessToken)
    (callback : Option Callback) (payload : UserInfoPayload) :
    ApiRequest × List ApiRequest × KeycloakUser :=
  d.getUserInfo accessToken.token callback payload

/-- `userFromToken(accessToken, callback)`: calls
`getUserInfo(accessToken, callback)` on the caller-supplied token. -/
def KeycloakDriver.userFromToken (d : KeycloakDriver) (accessToken : Str)
    (callback : Option Callback) (payload : UserInfoPayload) :
    ApiRequest × List ApiRequest × KeycloakUser :=
  d.getUserInfo accessToken callback payload

/-! ## General lemmas about the embedded string operations -/

/-- When the replacement text contains no `$`, `GetSubstitution` leaves it
unchanged. -/
theorem getSubstitution_of_no_dollar (matched str : Str) (position : Nat) :
    ∀ rep : Str, dollarChar ∉ rep →
      getSubstitution matched str position rep = rep := by
  intro rep
  induction rep with
  | nil => intro _; rfl
  | cons c rest ih =>
    intro h
    have hc : ¬c = dollarChar := fun hc => h (hc ▸ List.mem_cons_self c rest)
    have hrest : dollarChar ∉ rest := fun hm => h (List.mem_cons_of_mem c hm)
    rw [getSubstitution.eq_def]
    simp [hc, ih hrest]

/-- `jsReplace` with a `$`-free replacement is exactly literal substitution
at the first occurrence of the pattern. -/
theorem jsReplace_eq_replaceFirstOnlySpec (pat rep : Str) (hrep : dollarChar ∉ rep) :
    ∀ s : Str, jsReplace s pat rep = replaceFirstOnlySpec pat rep s := by
  intro s
  induction s with
  | nil =>
    by_cases hpat : pat = ([] : Str)
    · subst hpat
      simp [jsReplace, strIndexOf, replaceFirstOnlySpec, List.isPrefixOf,
        getSubstitution_of_no_dollar _ _ _ _ hrep]
    · have hp : pat.isPrefixOf ([] : Str) = false := by
        cases pat with
        | nil => exact absurd rfl hpat
        | cons a l => rfl
      simp [jsReplace, strIndexOf, hp, replaceFirstOnlySpec, hpat]
  | cons c rest ih =>
    by_cases hp : pat.isPrefixOf (c :: rest)
    · simp [jsReplace, strIndexOf, hp, replaceFirstOnlySpec,
        getSubstitution_of_no_dollar _ _ _ _ hrep]
    · rcases hidx : strIndexOf rest pat with _ | j
      · have hrest : jsReplace rest pat rep = rest := by simp [jsReplace, hidx]
        have hspec : replaceFirstOnlySpec pat rep rest = rest := (ih ▸ hrest : _)
        simp [jsReplace, strIndexOf, hp, hidx, replaceFirstOnlySpec, hspec]
      · have hrest : jsReplace rest pat rep =
            rest.take j ++ rep ++ rest.drop (j + pat.length) := by
          simp [jsReplace, hidx, getSubstitution_of_no_dollar _ _ _ _ hrep]
        have hspec : replaceFirstOnlySpec pat rep rest =
            rest.take j ++ rep ++ rest.drop (j + pat.length) := ih ▸ hrest
        have harith : j + 1 + pat.length = (j + pat.length) + 1 := by omega
        simp [jsReplace, strIndexOf, hp, hidx, replaceFirstOnlySpec, hspec,
          getSubstitution_of_no_dollar _ _ _ _ hrep, harith, List.drop_succ_cons,
          List.take_succ_cons]

/-- The URL of an authenticated request is the URL it was built for. -/
theorem getAuthenticatedRequest_url (url token : Str) :
    (getAuthenticatedRequest url token).url = url := rfl

/-! ## Concrete sample data used by witnesses and counterexamples -/

/-- The endpoint-URL template named by the spec's testable property. -/
def specTemplate : Str :=
  "https://host/realms/\x7b\x7brealm\x7d\x7d/protocol/openid-connect/\x7b\x7baction\x7d\x7d".toList

/-- A configuration carrying the spec template, realm `r1` and all three
endpoint overrides. -/
def cfgOverride : KeycloakConfig :=
  { driver := "keycloak".toList
    keycloakUrl := some specTemplate
    realm := some ("r1".toList)
    clientId := "cid".toList
    clientSecret := "secret".toList
    callbackUrl := "https://app/cb".toList
    authorizeUrl := some ("https://override.example/authorize".toList)
    accessTokenUrl := some ("https://override.example/token".toList)
    userInfoUrl := some ("https://override.example/userinfo".toList) }

/-- The configuration of the spec's testable property: template plus realm
`r1`, no overrides. -/
def cfgPlain : KeycloakConfig :=
  { driver := "keycloak".toList
    keycloakUrl := some specTemplate
    realm := some ("r1".toList)
    clientId := "cid".toList
    clientSecret := "secret".toList
    callbackUrl := "https://app/cb".toList
    authorizeUrl := none
    accessTokenUrl := none
    userInfoUrl := none }

/-- An empty incoming request context. -/
def emptyCtx : HttpContext := { params := [] }

/-! ## Claim theorems -/

/-- C10, counterexample: `buildKeycloakUrl` does not substitute the realm for
the first occurrence of `{{realm}}` when the realm is the string `$&` — the
JavaScript replacement rewrites `$&` to the matched text, so the placeholder
survives — refuting the claim's universally quantified substitution
behaviour. -/
theorem buildKeycloakUrl_dollar_realm_counterexample :
    buildKeycloakUrl
        { driver := "keycloak".toList
          keycloakUrl := some ("\x7b\x7brealm\x7d\x7d/\x7b\x7baction\x7d\x7d".toList)
          realm := some ("$&".toList)
          clientId := [], clientSecret := [], callbackUrl := []
          authorizeUrl := none, accessTokenUrl := none, userInfoUrl := none }
        ("auth".toList)
      = "\x7b\x7brealm\x7d\x7d/auth".toList ∧
    buildKeycloakUrl
        { driver := "keycloak".toList
          keycloakUrl := some ("\x7b\x7brealm\x7d\x7d/\x7b\x7baction\x7d\x7d".toList)
          realm := some ("$&".toList)
          clientId := [], clientSecret := [], callbackUrl := []
          authorizeUrl := none, accessTokenUrl := none, userInfoUrl := none }
        ("auth".toList)
      ≠ replaceFirstOnlySpec actionPlaceholder ("auth".toList)
          (replaceFirstOnlySpec realmPlaceholder ("$&".toList)
            ("\x7b\x7brealm\x7d\x7d/\x7b\x7baction\x7d\x7d".toList)) := by
  constructor
  · decide
  · decide

/-- C10, amended: for every configuration whose realm and action are free of
the `$` character, `buildKeycloakUrl` substitutes the realm verbatim for the
first occurrence of `{{realm}}` and the action verbatim for the first
occurrence of `{{action}}` in the resulting string, leaving every later
occurrence of either placeholder untouched (`replaceFirstOnlySpec` splices
the replacement at the first occurrence only and keeps the rest of the
string, hence all further occurrences, unchanged). -/
theorem buildKeycloakUrl_replaces_first_occurrence_only (config : KeycloakConfig)
    (url realm action : Str)
    (hu : config.keycloakUrl = some url) (hr : config.realm = some realm)
    (hrealm : dollarChar ∉ realm) (haction : dollarChar ∉ action) :
    buildKeycloakUrl config action =
      replaceFirstOnlySpec actionPlaceholder action
        (replaceFirstOnlySpec realmPlaceholder realm url) := by
  unfold buildKeycloakUrl
  rw [hu, hr]
  simp only [Option.getD_some]
  rw [jsReplace_eq_replaceFirstOnlySpec realmPlaceholder realm hrealm url,
    jsReplace_eq_replaceFirstOnlySpec actionPlaceholder action haction]

/-- C10 amended, witness: on a template with two `{{realm}}` occurrences the
derivation replaces the first occurrence only, the second surviving in the
result. -/
theorem buildKeycloakUrl_replaces_first_occurrence_only_witness :
    buildKeycloakUrl
        { driver := "keycloak".toList
          keycloakUrl := some ("https://h/\x7b\x7brealm\x7d\x7d/\x7b\x7brealm\x7d\x7d/\x7b\x7baction\x7d\x7d".toList)
          realm := some ("r1".toList)
          clientId := [], clientSecret := [], callbackUrl := []
          authorizeUrl := none, accessTokenUrl := none, userInfoUrl := none }
        ("auth".toList)
      = "https://h/r1/\x7b\x7brealm\x7d\x7d/auth".toList :=
  (buildKeycloakUrl_replaces_first_occurrence_only _ _ _ _ rfl rfl
    (by decide) (by decide)).trans (by decide)

/-- C2: for every configuration whose `keycloakUrl` is the template
`https://host/realms/{{realm}}/protocol/openid-connect/{{action}}` and whose
realm is `r1`, construction succeeds and derives the authorize, access-token
and user-info URLs by substituting `r1` for `{{realm}}` and `auth`, `token`,
`userinfo` for `{{action}}` respectively. -/
theorem construct_derives_spec_template_urls (ctx : HttpContext)
    (config : KeycloakConfig)
    (hu : config.keycloakUrl = some specTemplate)
    (hr : config.realm = some ("r1".toList)) :
    (KeycloakDriver.construct ctx config).toOption.map
        (fun d => (d.authorizeUrl, d.accessTokenUrl, d.userInfoUrl)) =
      some ("https://host/realms/r1/protocol/openid-connect/auth".toList,
        "https://host/realms/r1/protocol/openid-connect/token".toList,
        "https://host/realms/r1/protocol/openid-connect/userinfo".toList) := by
  have hfr : falsyStr config.realm = false := by rw [hr]; rfl
  have hfu : falsyStr config.keycloakUrl = false := by rw [hu]; rfl
  unfold KeycloakDriver.construct buildKeycloakUrl
  rw [hfr, hfu, hu, hr]
  rfl

/-- C2, witness: the derivation evaluated on the concrete configuration
carrying the spec template and realm `r1`. -/
theorem construct_derives_spec_template_urls_witness :
    (KeycloakDriver.construct emptyCtx cfgPlain).toOption.map
        (fun d => (d.authorizeUrl, d.accessTokenUrl, d.userInfoUrl)) =
      some ("https://host/realms/r1/protocol/openid-connect/auth".toList,
        "https://host/realms/r1/protocol/openid-connect/token".toList,
        "https://host/realms/r1/protocol/openid-connect/userinfo".toList) :=
  construct_derives_spec_template_urls emptyCtx cfgPlain rfl rfl

/-- The driver value produced by constructing with `cfgOverride`: all three
endpoint-URL fields hold the template-derived URLs, not the overrides. -/
def driverOverride : KeycloakDriver :=
  { authorizeUrl := "https://host/realms/r1/protocol/openid-connect/auth".toList
    accessTokenUrl := "https://host/realms/r1/protocol/openid-connect/token".toList
    userInfoUrl := "https://host/realms/r1/protocol/openid-connect/userinfo".toList
    config := cfgOverride
    ctx := emptyCtx
    stateLoaded := true }

/-- C1, counterexample: a configuration supplying an explicit `authorizeUrl`
override, for which construction nevertheless sets the driver's authorize
endpoint to the template-derived URL, not the override. -/
theorem construct_override_ignored_counterexample :
    cfgOverride.authorizeUrl = some ("https://override.example/authorize".toList) ∧
    (KeycloakDriver.construct emptyCtx cfgOverride).toOption.map
        (fun d => d.authorizeUrl) =
      some ("https://host/realms/r1/protocol/openid-connect/auth".toList) ∧
    ("https://host/realms/r1/protocol/openid-connect/auth".toList
      ≠ "https://override.example/authorize".toList) := by
  refine ⟨rfl, rfl, by decide⟩

/-- C1, amended: construction always derives all three endpoint-URL fields
from the `keycloakUrl` template, ignoring any supplied overrides; the
`userInfoUrl` override is consulted only later, at user-info fetch time,
where it takes precedence over the derived URL (the `authorizeUrl` and
`accessTokenUrl` overrides are not consulted by any code in this
repository). -/
theorem construct_always_derives_urls (ctx : HttpContext) (config : KeycloakConfig)
    (d : KeycloakDriver) (h : KeycloakDriver.construct ctx config = Except.ok d) :
    d.authorizeUrl = buildKeycloakUrl config ("auth".toList) ∧
    d.accessTokenUrl = buildKeycloakUrl config ("token".toList) ∧
    d.userInfoUrl = buildKeycloakUrl config ("userinfo".toList) ∧
    ∀ u token, config.userInfoUrl = some u → (d.userInfoRequest token).url = u := by
  by_cases h1 : falsyStr config.realm = true
  · simp [KeycloakDriver.construct, h1] at h
  · by_cases h2 : falsyStr config.keycloakUrl = true
    · simp [KeycloakDriver.construct, h1, h2] at h
    · simp [KeycloakDriver.construct, h1, h2] at h
      subst h
      refine ⟨rfl, rfl, rfl, ?_⟩
      intro u token hu
      simp [KeycloakDriver.userInfoRequest, getAuthenticatedRequest_url, hu]

/-- C1 amended, witness: constructing with `cfgOverride` yields the derived
URLs in all three fields while the user-info fetch targets the override. -/
theorem construct_always_derives_urls_witness :
    driverOverride.authorizeUrl = buildKeycloakUrl cfgOverride ("auth".toList) ∧
    driverOverride.accessTokenUrl = buildKeycloakUrl cfgOverride ("token".toList) ∧
    driverOverride.userInfoUrl = buildKeycloakUrl cfgOverride ("userinfo".toList) ∧
    (driverOverride.userInfoRequest ("tok".toList)).url =
      "https://override.example/userinfo".toList := by
  have H := construct_always_derives_urls emptyCtx cfgOverride driverOverride rfl
  exact ⟨H.1, H.2.1, H.2.2.1, H.2.2.2 _ _ rfl⟩

/-- A configuration whose realm is present but is the empty string. -/
def cfgEmptyRealm : KeycloakConfig :=
  { driver := "keycloak".toList
    keycloakUrl := some specTemplate
    realm := some []
    clientId := "cid".toList
    clientSecret := "secret".toList
    callbackUrl := "https://app/cb".toList
    authorizeUrl := none
    accessTokenUrl := none
    userInfoUrl := none }

/-- A configuration with no realm at all. -/
def cfgNoRealm : KeycloakConfig :=
  { driver := "keycloak".toList
    keycloakUrl := some specTemplate
    realm := none
    clientId := "cid".toList
    clientSecret := "secret".toList
    callbackUrl := "https://app/cb".toList
    authorizeUrl := none
    accessTokenUrl := none
    userInfoUrl := none }

/-- A configuration with a realm but no keycloakUrl. -/
def cfgNoUrl : KeycloakConfig :=
  { driver := "keycloak".toList
    keycloakUrl := none
    realm := some ("r1".toList)
    clientId := "cid".toList
    clientSecret := "secret".toList
    callbackUrl := "https://app/cb".toList
    authorizeUrl := none
    accessTokenUrl := none
    userInfoUrl := none }

/-- C3, counterexample: a configuration in which both `realm` and
`keycloakUrl` are present (the realm being the empty string, which is falsy
in JavaScript) yet construction throws the realm error — refuting
"construction succeeds when both are present". -/
theorem construct_empty_realm_counterexample :
    cfgEmptyRealm.realm.isSome = true ∧ cfgEmptyRealm.keycloakUrl.isSome = true ∧
    KeycloakDriver.construct emptyCtx cfgEmptyRealm
      = Except.error realmErrorMessage := by
  refine ⟨rfl, rfl, rfl⟩

/-- C3, amended: construction throws the error identifying `realm` when the
realm is absent or empty; throws the error identifying `keycloakUrl` when the
realm is non-empty but the keycloakUrl is absent or empty; yields no driver
in either case; and succeeds exactly when both are present and non-empty.
Both messages contain the name of the missing field. -/
theorem construct_validation (ctx : HttpContext) (config : KeycloakConfig) :
    (falsyStr config.realm = true →
      KeycloakDriver.construct ctx config = Except.error realmErrorMessage) ∧
    (falsyStr config.realm = false → falsyStr config.keycloakUrl = true →
      KeycloakDriver.construct ctx config = Except.error keycloakUrlErrorMessage) ∧
    (falsyStr config.realm = false → falsyStr config.keycloakUrl = false →
      ∃ d, KeycloakDriver.construct ctx config = Except.ok d) ∧
    containsStr realmErrorMessage ("realm".toList) = true ∧
    containsStr keycloakUrlErrorMessage ("keycloakUrl".toList) = true := by
  refine ⟨?_, ?_, ?_, by decide, by decide⟩
  · intro h1
    simp [KeycloakDriver.construct, h1]
  · intro h1 h2
    simp [KeycloakDriver.construct, h1, h2]
  · intro h1 h2
    refine ⟨{ authorizeUrl := buildKeycloakUrl config ("auth".toList)
              accessTokenUrl := buildKeycloakUrl config ("token".toList)
              userInfoUrl := buildKeycloakUrl config ("userinfo".toList)
              config := config
              ctx := ctx
              stateLoaded := true }, ?_⟩
    simp [KeycloakDriver.construct, h1, h2]

/-- C3 amended, witness: the three validation outcomes evaluated on concrete
configurations (missing realm, missing keycloakUrl, both present). -/
theorem construct_validation_witness :
    KeycloakDriver.construct emptyCtx cfgNoRealm = Except.error realmErrorMessage ∧
    KeycloakDriver.construct emptyCtx cfgNoUrl = Except.error keycloakUrlErrorMessage ∧
    ∃ d, KeycloakDriver.construct emptyCtx cfgPlain = Except.ok d :=
  ⟨(construct_validation emptyCtx cfgNoRealm).1 rfl,
    (construct_validation emptyCtx cfgNoUrl).2.1 rfl rfl,
    (construct_validation emptyCtx cfgPlain).2.2.1 rfl rfl⟩

/-- The user-info payload named by the spec's testable property. -/
def samplePayload : UserInfoPayload :=
  { sub := "u1".toList
    preferred_username := "bob".toList
    family_name := "Smith".toList
    given_name := "Bob".toList
    name := "Bob Smith".toList
    email := "b@x.com".toList
    email_verified := true }

/-- The driver value produced by constructing with `cfgPlain`. -/
def driverPlain : KeycloakDriver :=
  { authorizeUrl := "https://host/realms/r1/protocol/openid-connect/auth".toList
    accessTokenUrl := "https://host/realms/r1/protocol/openid-connect/token".toList
    userInfoUrl := "https://host/realms/r1/protocol/openid-connect/userinfo".toList
    config := cfgPlain
    ctx := emptyCtx
    stateLoaded := true }

/-- C4: `accessDenied()` returns true exactly when the request's `error`
input parameter is present and equal to the string `user_denied`; any other
value, or the absence of the parameter, yields false. -/
theorem accessDenied_iff_user_denied (d : KeycloakDriver) :
    d.accessDenied = true ↔
      requestInput d.ctx ("error".toList) = some ("user_denied".toList) := by
  simp [KeycloakDriver.accessDenied]

/-- C5: for every payload and token, `userFromToken` (and `user`, on the
token produced by the exchange) returns the record mapping `sub` to `id`,
`preferred_username` to `nickName`, `given_name` to `firstName`,
`family_name` to `lastName`, `name` to `name` and `email` to `email`, with
`avatarUrl` null, `emailVerificationState` equal to `verified` when
`email_verified` is true and `unverified` when it is false, the token record
`{type: bearer, token: <the token>}`, and `original` the raw payload. -/
theorem user_field_mapping (d : KeycloakDriver) (token : Str)
    (accessToken : KeycloakAccessToken) (callback : Option Callback)
    (payload : UserInfoPayload) :
    (d.userFromToken token callback payload).2.2 =
      { id := payload.sub
        nickName := payload.preferred_username
        lastName := payload.family_name
        firstName := payload.given_name
        name := payload.name
        email := payload.email
        avatarUrl := none
        emailVerificationState :=
          if payload.email_verified then "verified".toList else "unverified".toList
        original := payload
        token := { type := "bearer".toList, token := token } } ∧
    (d.user accessToken callback payload).2.2 =
      { id := payload.sub
        nickName := payload.preferred_username
        lastName := payload.family_name
        firstName := payload.given_name
        name := payload.name
        email := payload.email
        avatarUrl := none
        emailVerificationState :=
          if payload.email_verified then "verified".toList else "unverified".toList
        original := payload
        token := { type := "bearer".toList, token := accessToken.token } } :=
  ⟨rfl, rfl⟩

/-- C6: the user-info fetch of `user()`/`userFromToken()` targets the
`userInfoUrl` override when the configuration supplies one, and the
template-derived URL stored in the driver otherwise. -/
theorem userInfoUrl_override_precedence (d : KeycloakDriver) (token : Str)
    (payload : UserInfoPayload) :
    (∀ u, d.config.userInfoUrl = some u →
      ((d.getUserInfo token none payload).1).url = u) ∧
    (d.config.userInfoUrl = none →
      ((d.getUserInfo token none payload).1).url = d.userInfoUrl) := by
  constructor
  · intro u hu
    show (d.userInfoRequest token).url = u
    simp [KeycloakDriver.userInfoRequest, getAuthenticatedRequest_url, hu]
  · intro hu
    show (d.userInfoRequest token).url = d.userInfoUrl
    simp [KeycloakDriver.userInfoRequest, getAuthenticatedRequest_url, hu]

/-- C6, witness: with the override configuration the fetch targets the
override URL; without it, the derived URL. -/
theorem userInfoUrl_override_precedence_witness :
    ((driverOverride.getUserInfo ("tok".toList) none samplePayload).1).url =
      "https://override.example/userinfo".toList ∧
    ((driverPlain.getUserInfo ("tok".toList) none samplePayload).1).url =
      "https://host/realms/r1/protocol/openid-connect/userinfo".toList :=
  ⟨(userInfoUrl_override_precedence driverOverride ("tok".toList) samplePayload).1
      ("https://override.example/userinfo".toList) rfl,
    (userInfoUrl_override_precedence driverPlain ("tok".toList) samplePayload).2 rfl⟩

/-- C7: for every token, the request the driver configures for the user-info
fetch carries the header `Authorization: Bearer <token>` and the header
`Accept: application/json`; the request sent by `getUserInfo` is exactly that
request, possibly transformed by the caller's customizer. -/
theorem userinfo_request_carries_headers (d : KeycloakDriver) (token : Str)
    (callback : Option Callback) (payload : UserInfoPayload) :
    ("Authorization".toList, "Bearer ".toList ++ token)
        ∈ (d.userInfoRequest token).headers ∧
    ("Accept".toList, "application/json".toList)
        ∈ (d.userInfoRequest token).headers ∧
    (d.getUserInfo token callback payload).1 =
      (match callback with
        | some f => f (d.userInfoRequest token)
        | none => d.userInfoRequest token) := by
  refine ⟨?_, ?_, ?_⟩
  · simp [KeycloakDriver.userInfoRequest, getAuthenticatedRequest, httpClient,
      ApiRequest.header, ApiRequest.parseAs]
  · simp [KeycloakDriver.userInfoRequest, getAuthenticatedRequest, httpClient,
      ApiRequest.header, ApiRequest.parseAs]
  · cases callback <;> rfl

/-- C8: when a customizer is supplied, `getUserInfo` invokes it exactly once,
on the fully driver-configured request (URL, both headers and JSON parse mode
already set), and the request sent is the customizer's result — so caller
settings override the driver's; with no customizer the trace is empty. -/
theorem getUserInfo_callback_once (d : KeycloakDriver) (token : Str)
    (f : Callback) (payload : UserInfoPayload) :
    (d.getUserInfo token (some f) payload).2.1 = [d.userInfoRequest token] ∧
    (d.getUserInfo token (some f) payload).1 = f (d.userInfoRequest token) ∧
    (d.getUserInfo token none payload).2.1 = [] :=
  ⟨rfl, rfl, rfl⟩

/-- C9: `userFromToken(t, cb)` returns exactly what `user(cb)` returns in a
run whose code exchange yields the access token `t` — the sent request, the
customizer trace and the user record all coincide. -/
theorem userFromToken_eq_user (d : KeycloakDriver) (accessToken : KeycloakAccessToken)
    (t : Str) (callback : Option Callback) (payload : UserInfoPayload)
    (h : accessToken.token = t) :
    d.userFromToken t callback payload = d.user accessToken callback payload := by
  subst h
  rfl

/-- C9, witness: the equality evaluated on a concrete driver, token and
payload. -/
theorem userFromToken_eq_user_witness :
    driverPlain.userFromToken ("tok".toList) none samplePayload =
      driverPlain.user { token := "tok".toList, type := "bearer".toList } none
        samplePayload :=
  userFromToken_eq_user driverPlain
    { token := "tok".toList, type := "bearer".toList } ("tok".toList) none
    samplePayload rfl
